import Mathlib

/-!
Shallow embedding of the Clinical BERT assertion-classification API
(`app/model.py`, `app/schemas.py`, `app/main.py`) and proofs of the
specification claims about it.

The Inference Provider (the HuggingFace pipeline) is a black box: it is
modelled as a function from the input to either a raw score structure
(`Raw`, one list of label/score entries per input sentence) or a Python
exception.  Python exceptions are split exactly the way the HTTP layer
splits them: `RuntimeError` (caught first, mapped to 503) versus every
other exception (mapped to 500 by the generic handler).

Inference-invoking operations also return a `Nat` counting how many
calls were made to the provider, so that "no inference attempted" and
"no retries" are expressible.
-/

namespace ClinicalBert

/-- Decidable equality of `Except` values, used to evaluate the embedded
operations on concrete inputs. -/
instance {ε α : Type} [DecidableEq ε] [DecidableEq α] : DecidableEq (Except ε α) := fun x y =>
  match x, y with
  | .ok a, .ok b =>
    if h : a = b then .isTrue (by simp [h]) else .isFalse (by simp [h])
  | .error a, .error b =>
    if h : a = b then .isTrue (by simp [h]) else .isFalse (by simp [h])
  | .ok _, .error _ => .isFalse (by simp)
  | .error _, .ok _ => .isFalse (by simp)

/-- One (label, score) entry of the provider's output for one sentence. -/
structure Entry where
  label : String
  score : ℚ
deriving Repr, DecidableEq

/-- Raw provider output: one list of entries per input sentence
(`pipeline` with `top_k=None` returns a list of per-sentence score lists). -/
abbrev Raw := List (List Entry)

/-- The cached pipeline object built in `load_model` (app/model.py lines 43-51):
its configuration fields as passed to `pipeline(...)`. -/
structure Pipeline where
  device : Int
  topK : Option Nat
  truncation : Bool
  maxLength : Nat
deriving Repr, DecidableEq

/-- The module-level singletons of app/model.py (lines 17-19):
`_pipeline` and `_load_time_ms`, both `None` until `load_model` runs. -/
structure ModelState where
  pipeline : Option Pipeline
  loadTimeMs : Option ℚ
deriving Repr, DecidableEq

/-- `MODEL_NAME` from app/model.py line 15. -/
def MODEL_NAME : String := "bvanaken/clinical-assertion-negation-bert"

/-- The state at process start: both singletons unset. -/
def initialState : ModelState := { pipeline := none, loadTimeMs := none }

/-- `load_model` (app/model.py lines 22-55).  If the pipeline singleton is
already set it returns at once leaving the state unchanged; otherwise it
builds the pipeline (device 0 on CUDA, -1 for CPU; `top_k=None`;
`truncation=True`; `max_length=512`) and records the elapsed load time.
The CUDA probe and the measured wall time are inputs of the model. -/
def load_model (cudaAvailable : Bool) (elapsedMs : ℚ) (st : ModelState) : ModelState :=
  if st.pipeline.isSome then st
  else
    { pipeline := some
        { device := if cudaAvailable then 0 else -1
          topK := none
          truncation := true
          maxLength := 512 }
      loadTimeMs := some elapsedMs }

/-- Python exceptions as the HTTP layer distinguishes them:
`except RuntimeError` is caught first (503), any other exception falls
to the generic branch (500). -/
inductive PyError where
  | runtimeError (msg : String)
  | otherError (msg : String)
deriving Repr, DecidableEq

/-- The message of the `RuntimeError` raised by `get_pipeline`
(app/model.py lines 60-64). -/
def notInitMsg : String :=
  "Model pipeline is not initialised. Ensure load_model() was called during application startup."

/-- `get_pipeline` (app/model.py lines 58-65): returns the cached pipeline,
raising `RuntimeError` when it is unset. -/
def get_pipeline (st : ModelState) : Except PyError Pipeline :=
  match st.pipeline with
  | none => .error (.runtimeError notInitMsg)
  | some p => .ok p

/-- Python `str.strip()` on a character list: drop whitespace from both ends. -/
def pyStrip (l : List Char) : List Char :=
  ((l.dropWhile Char.isWhitespace).reverse.dropWhile Char.isWhitespace).reverse

/-- Python `str.strip()` on a string. -/
def strip (s : String) : String := ⟨pyStrip s.data⟩

/-- Python `max(entries, key=lambda x: x["score"])`: `max` keeps the current
best and replaces it only when an item's key is strictly greater, so the
first maximum in iteration order wins; on an empty list it raises. -/
def pyMaxByScore : List Entry → Option Entry
  | [] => none
  | e :: es => some (es.foldl (fun best x => if best.score < x.score then x else best) e)

/-- Round-half-to-even on a rational, the semantics of Python `round`:
the nearest integer, with a value exactly halfway between two integers
(that is, equal to `⌊q⌋ + 1/2`, written `mkRat (2⌊q⌋+1) 2`) sent to the
even neighbour. -/
def roundHalfEven (q : ℚ) : ℤ :=
  if q < mkRat (2 * ⌊q⌋ + 1) 2 then ⌊q⌋
  else if mkRat (2 * ⌊q⌋ + 1) 2 < q then ⌊q⌋ + 1
  else if ⌊q⌋ % 2 = 0 then ⌊q⌋ else ⌊q⌋ + 1

/-- Python `round(q, ndigits)` idealised over exact rationals: round
`q · 10 ^ ndigits` half-to-even, divide back by `10 ^ ndigits`.  The
scaling is written with `mkRat` on the numerator and denominator, which
equals `q * 10 ^ ndigits`. -/
def pyRound (q : ℚ) (ndigits : Nat) : ℚ :=
  mkRat (roundHalfEven (mkRat (q.num * ((10 ^ ndigits : ℕ) : ℤ)) q.den)) (10 ^ ndigits)

/-- The value returned by `predict_single`: `{"label": ..., "score": ...}`. -/
structure Pred where
  label : String
  score : ℚ
deriving Repr, DecidableEq

/-- `predict_single` (app/model.py lines 68-92).  Raises `RuntimeError` via
`get_pipeline` when uninitialised (provider never called, count 0);
otherwise calls the provider once, takes `raw[0]` (IndexError when `raw`
is empty), selects the max-score entry (`ValueError` when the entry list
is empty) and rounds its score to 4 digits. -/
def predict_single (st : ModelState) (pipe : String → Except PyError Raw)
    (sentence : String) : Except PyError Pred × Nat :=
  match get_pipeline st with
  | .error e => (.error e, 0)
  | .ok _ =>
    match pipe sentence with
    | .error e => (.error e, 1)
    | .ok raw =>
      match raw.head? with
      | none => (.error (.otherError "list index out of range"), 1)
      | some allScores =>
        match pyMaxByScore allScores with
        | none => (.error (.otherError "max() arg is an empty sequence"), 1)
        | some best => (.ok ⟨best.label, pyRound best.score 4⟩, 1)

/-- One item of the batch response (`BatchPredictItem` in app/schemas.py). -/
structure BatchPredictItem where
  sentence : String
  label : String
  score : ℚ
deriving Repr, DecidableEq

/-- The result-building loop of `predict_batch` (app/model.py lines 109-118):
`for sentence, all_scores in zip(sentences, raw)` selects each first
maximum and pairs it with its sentence; an empty score list raises
`ValueError` and the whole call fails. -/
def batchResults : List (String × List Entry) → Except PyError (List BatchPredictItem)
  | [] => .ok []
  | (s, allScores) :: rest =>
    match pyMaxByScore allScores with
    | none => .error (.otherError "max() arg is an empty sequence")
    | some best =>
      match batchResults rest with
      | .error e => .error e
      | .ok items => .ok (⟨s, best.label, pyRound best.score 4⟩ :: items)

/-- `predict_batch` (app/model.py lines 95-124): not-initialised check, one
provider call on the whole list, then the zip loop (Python `zip`
truncates to the shorter of the two sequences). -/
def predict_batch (st : ModelState) (pipe : List String → Except PyError Raw)
    (sentences : List String) : Except PyError (List BatchPredictItem) × Nat :=
  match get_pipeline st with
  | .error e => (.error e, 0)
  | .ok _ =>
    match pipe sentences with
    | .error e => (.error e, 1)
    | .ok raw => (batchResults (sentences.zip raw), 1)

/-- The dict returned by `get_model_info` (app/model.py lines 127-137).
Note `round(_load_time_ms, 1) if _load_time_ms else None`: Python
truthiness makes a recorded 0.0 report as `None`. -/
structure ModelInfo where
  model_name : String
  loaded : Bool
  load_time_ms : Option ℚ
  device : String
  labels : List String
deriving Repr, DecidableEq

/-- `get_model_info` (app/model.py lines 127-137). -/
def get_model_info (cudaAvailable : Bool) (st : ModelState) : ModelInfo :=
  { model_name := MODEL_NAME
    loaded := st.pipeline.isSome
    load_time_ms :=
      match st.loadTimeMs with
      | some t => if t = 0 then none else some (pyRound t 1)
      | none => none
    device := if cudaAvailable then "GPU (CUDA)" else "CPU"
    labels := ["PRESENT", "ABSENT", "CONDITIONAL"] }

/-- A JSON value, as a request field arrives after body parsing.  An absent
field is represented by `Option.none` at the use site. -/
inductive Json where
  | str (s : String)
  | num (q : ℚ)
  | bool (b : Bool)
  | arr (elems : List Json)
  | null

/-- The `sentence_must_not_be_blank` field validator of `PredictRequest`
(app/schemas.py lines 28-33): reject blank-after-strip, return the
stripped text. -/
def sentence_must_not_be_blank (v : String) : Except String String :=
  if strip v = "" then .error "sentence must not be blank or whitespace only."
  else .ok (strip v)

/-- Validation of the `sentence` field of `PredictRequest` (app/schemas.py
lines 15-33): the value must be a JSON string (pydantic does not coerce
other JSON types to `str`), `Field(min_length=1, max_length=2048)` is
checked on the raw value, then the blank-check validator runs and the
stripped text becomes the field value. -/
def validatePredictRequest (field : Option Json) : Except String String :=
  match field with
  | none => .error "Field required"
  | some (.str s) =>
    if s.length < 1 then .error "String should have at least 1 character"
    else if 2048 < s.length then .error "String should have at most 2048 characters"
    else sentence_must_not_be_blank s
  | some _ => .error "Input should be a valid string"

/-- Element type-validation of `list[str]`: every element must be a JSON
string, otherwise pydantic rejects the request. -/
def asStrings : List Json → Option (List String)
  | [] => some []
  | .str s :: rest => (asStrings rest).map (s :: ·)
  | _ :: _ => none

/-- The `validate_sentences` field validator of `BatchPredictRequest`
(app/schemas.py lines 74-82): fails if any element strips to empty,
otherwise returns the list of stripped elements.  (After `list[str]`
type validation every element is a string, so the `isinstance` arm of
the source check is the blank check.) -/
def validate_sentences (v : List String) : Except String (List String) :=
  if v.any (fun s => strip s = "") then .error "is empty or not a string."
  else .ok (v.map strip)

/-- Validation of the `sentences` field of `BatchPredictRequest`
(app/schemas.py lines 62-82): a JSON array of strings,
`Field(min_length=1, max_length=64)` bounding the number of items, then
the per-element blank-check validator.  No per-element length bound is
present in the source. -/
def validateBatchPredictRequest (field : Option Json) : Except String (List String) :=
  match field with
  | none => .error "Field required"
  | some (.arr xs) =>
    match asStrings xs with
    | none => .error "Input should be a valid string"
    | some ss =>
      if ss.length < 1 then .error "List should have at least 1 item"
      else if 64 < ss.length then .error "List should have at most 64 items"
      else validate_sentences ss
  | some _ => .error "Input should be a valid list"

/-- Response bodies of the four route outcomes the claims mention. -/
inductive Body where
  | predictBody (label : String) (score : ℚ)
  | batchBody (results : List BatchPredictItem) (count : Nat)
  | healthBody (status model_name : String) (model_loaded : Bool) (device : String)
  | detail (msg : String)
deriving Repr, DecidableEq

/-- An HTTP response: status code and body. -/
structure HttpResponse where
  status : Nat
  body : Body
deriving Repr, DecidableEq

/-- Detail of the catch-all 500 handler (app/main.py lines 99-105), also
produced when FastAPI response-model validation fails. -/
def internalErrorDetail : String := "Internal server error. Please try again later."

/-- The `POST /predict` route (app/main.py lines 153-178): FastAPI
validation of the body (422 on failure, handler never entered), then
`predict_single`; `RuntimeError` is mapped to 503 with the exception
text, any other exception to 500 with the fixed detail; a 200 response
passes `response_model=PredictResponse` validation, whose
`Field(ge=0.0, le=1.0)` bound on `score` turns an out-of-range score
into a 500 via the catch-all handler.  The `Nat` is the number of
provider invocations.  `predictHandler` is the `predict` coroutine body
(app/main.py lines 159-178), entered only after validation passed. -/
def predictHandler (st : ModelState) (pipe : String → Except PyError Raw)
    (sentence : String) : HttpResponse × Nat :=
  match predict_single st pipe sentence with
  | (.error (.runtimeError msg), n) => (⟨503, .detail msg⟩, n)
  | (.error (.otherError _), n) => (⟨500, .detail "Prediction failed."⟩, n)
  | (.ok p, n) =>
    if 0 ≤ p.score ∧ p.score ≤ 1 then (⟨200, .predictBody p.label p.score⟩, n)
    else (⟨500, .detail internalErrorDetail⟩, n)

/-- FastAPI dispatch for `POST /predict`: request-body validation happens
before the handler runs; a validation failure answers 422 and the
handler (hence inference) is never entered. -/
def predictRoute (st : ModelState) (pipe : String → Except PyError Raw)
    (body : Option Json) : HttpResponse × Nat :=
  match validatePredictRequest body with
  | .error e => (⟨422, .detail e⟩, 0)
  | .ok sentence => predictHandler st pipe sentence

/-- The `POST /predict/batch` route (app/main.py lines 181-203): FastAPI
validation, then `predict_batch` with the same exception translation;
on success `count = len(items)`, and `response_model` validation bounds
every item score to [0, 1].  `batchHandler` is the
`predict_batch_endpoint` coroutine body (app/main.py lines 187-203),
entered only after validation passed. -/
def batchHandler (st : ModelState) (pipe : List String → Except PyError Raw)
    (sentences : List String) : HttpResponse × Nat :=
  match predict_batch st pipe sentences with
  | (.error (.runtimeError msg), n) => (⟨503, .detail msg⟩, n)
  | (.error (.otherError _), n) => (⟨500, .detail "Batch prediction failed."⟩, n)
  | (.ok items, n) =>
    if items.all (fun it => decide (0 ≤ it.score ∧ it.score ≤ 1)) then
      (⟨200, .batchBody items items.length⟩, n)
    else (⟨500, .detail internalErrorDetail⟩, n)

/-- FastAPI dispatch for `POST /predict/batch`: validation before the
handler, 422 on failure with the handler never entered. -/
def batchRoute (st : ModelState) (pipe : List String → Except PyError Raw)
    (body : Option Json) : HttpResponse × Nat :=
  match validateBatchPredictRequest body with
  | .error e => (⟨422, .detail e⟩, 0)
  | .ok sentences => batchHandler st pipe sentences

/-- The `GET /health` route (app/main.py lines 127-150): reads
`get_model_info`, answers 503 when the model is not loaded, otherwise
200 with the health body.  It returns the state unchanged: it never
calls `load_model`. -/
def healthRoute (cudaAvailable : Bool) (st : ModelState) : (HttpResponse × ModelState) :=
  let info := get_model_info cudaAvailable st
  if info.loaded then
    (⟨200, .healthBody "ok" info.model_name info.loaded info.device⟩, st)
  else
    (⟨503, .detail "Model is not yet loaded. Service is not ready."⟩, st)

/-! ### Supporting lemmas -/

/-- The closed label set of the model. -/
def labelSet : List String := ["PRESENT", "ABSENT", "CONDITIONAL"]

lemma mkRat_half (n : ℤ) : (mkRat n 2 : ℚ) = (n : ℚ) / 2 := by
  rw [Rat.mkRat_eq_divInt, Rat.divInt_eq_div]
  norm_num

lemma roundHalfEven_eq_floor_or (q : ℚ) :
    roundHalfEven q = ⌊q⌋ ∨ roundHalfEven q = ⌊q⌋ + 1 := by
  unfold roundHalfEven
  split
  · exact Or.inl rfl
  split
  · exact Or.inr rfl
  split
  · exact Or.inl rfl
  · exact Or.inr rfl

lemma roundHalfEven_nonneg {q : ℚ} (h : 0 ≤ q) : 0 ≤ roundHalfEven q := by
  have hf : 0 ≤ ⌊q⌋ := Int.floor_nonneg.mpr h
  rcases roundHalfEven_eq_floor_or q with h1 | h1 <;> omega

lemma roundHalfEven_le {q : ℚ} {N : ℤ} (h : q ≤ (N : ℚ)) : roundHalfEven q ≤ N := by
  have hfl : ⌊q⌋ ≤ N := by
    have := Int.floor_mono h
    rwa [Int.floor_intCast] at this
  unfold roundHalfEven
  rw [mkRat_half]
  split
  · exact hfl
  rename_i h1
  push_neg at h1
  split
  · rename_i h2
    have hq : ((⌊q⌋ : ℚ)) < (N : ℚ) := by
      have : ((2 * ⌊q⌋ + 1 : ℤ) : ℚ) / 2 < (N : ℚ) := lt_of_lt_of_le h2 h
      push_cast at this ⊢
      linarith
    have : ⌊q⌋ < N := by exact_mod_cast hq
    omega
  · rename_i h2
    push_neg at h2
    have heq : q = ((2 * ⌊q⌋ + 1 : ℤ) : ℚ) / 2 := le_antisymm h2 h1
    split
    · exact hfl
    · have hq : ((⌊q⌋ : ℚ)) < (N : ℚ) := by
        rw [heq] at h
        push_cast at h ⊢
        linarith
      have : ⌊q⌋ < N := by exact_mod_cast hq
      omega

lemma mkRat_scale (q : ℚ) (c : ℕ) : (mkRat (q.num * (c : ℤ)) q.den : ℚ) = q * c := by
  conv_rhs => rw [← Rat.num_div_den q]
  rw [Rat.mkRat_eq_divInt, Rat.divInt_eq_div]
  push_cast
  ring

lemma mkRat_nonneg_of {n : ℤ} (d : ℕ) (h : 0 ≤ n) : 0 ≤ (mkRat n d : ℚ) := by
  rw [Rat.mkRat_eq_divInt, Rat.divInt_eq_div]
  positivity

/-- `pyRound` keeps a score inside `[0, 1]`. -/
lemma pyRound_mem_unit {q : ℚ} (n : ℕ) (h0 : 0 ≤ q) (h1 : q ≤ 1) :
    0 ≤ pyRound q n ∧ pyRound q n ≤ 1 := by
  unfold pyRound
  have hscale : (mkRat (q.num * ((10 ^ n : ℕ) : ℤ)) q.den : ℚ) = q * ((10 ^ n : ℕ) : ℚ) := by
    rw [mkRat_scale]
  have hpow : (0 : ℚ) < ((10 ^ n : ℕ) : ℚ) := by positivity
  have hpow' : (0 : ℚ) ≤ (10 : ℚ) ^ n := by positivity
  have hs0 : 0 ≤ (mkRat (q.num * ((10 ^ n : ℕ) : ℤ)) q.den : ℚ) := by
    rw [hscale]; positivity
  have hs1 : (mkRat (q.num * ((10 ^ n : ℕ) : ℤ)) q.den : ℚ) ≤ (((10 ^ n : ℕ) : ℤ) : ℚ) := by
    rw [hscale]
    push_cast
    nlinarith [mul_le_mul_of_nonneg_right h1 hpow']
  have hr0 : 0 ≤ roundHalfEven (mkRat (q.num * ((10 ^ n : ℕ) : ℤ)) q.den) :=
    roundHalfEven_nonneg hs0
  have hr1 : roundHalfEven (mkRat (q.num * ((10 ^ n : ℕ) : ℤ)) q.den) ≤ ((10 ^ n : ℕ) : ℤ) :=
    roundHalfEven_le hs1
  constructor
  · exact mkRat_nonneg_of _ hr0
  · rw [Rat.mkRat_eq_divInt, Rat.divInt_eq_div]
    rw [div_le_one (by push_cast; positivity)]
    exact_mod_cast hr1

/-- Invariant of the fold inside `pyMaxByScore`: either no element strictly
exceeds the seed and the seed is returned, or the result is an element
of the list that strictly exceeds the seed, every earlier element is
either below it or below the seed, and it bounds the whole list. -/
lemma foldl_best_spec (es : List Entry) : ∀ e : Entry,
    (es.foldl (fun best x => if best.score < x.score then x else best) e = e ∧
      ∀ a ∈ es, a.score ≤ e.score) ∨
    (∃ l₁ b l₂, es = l₁ ++ b :: l₂ ∧
      es.foldl (fun best x => if best.score < x.score then x else best) e = b ∧
      e.score < b.score ∧
      (∀ a ∈ l₁, a.score < b.score ∨ a.score ≤ e.score) ∧
      (∀ a ∈ es, a.score ≤ b.score)) := by
  induction es with
  | nil =>
    intro e
    exact Or.inl ⟨rfl, by simp⟩
  | cons x es ih =>
    intro e
    by_cases hx : e.score < x.score
    · rcases ih x with ⟨hr, hall⟩ | ⟨l₁, b, l₂, hsplit, hr, hlt, hl₁, hall⟩
      · refine Or.inr ⟨[], x, es, by simp, ?_, hx, by simp, ?_⟩
        · simpa [List.foldl_cons, if_pos hx] using hr
        · intro a ha
          rcases List.mem_cons.mp ha with rfl | ha
          · exact le_refl _
          · exact hall a ha
      · refine Or.inr ⟨x :: l₁, b, l₂, by rw [hsplit]; rfl, ?_, ?_, ?_, ?_⟩
        · simpa [List.foldl_cons, if_pos hx] using hr
        · exact lt_trans hx hlt
        · intro a ha
          rcases List.mem_cons.mp ha with rfl | ha
          · exact Or.inl hlt
          · rcases hl₁ a ha with h | h
            · exact Or.inl h
            · exact Or.inl (lt_of_le_of_lt h hlt)
        · intro a ha
          rcases List.mem_cons.mp ha with rfl | ha
          · exact le_of_lt hlt
          · exact hall a ha
    · push_neg at hx
      rcases ih e with ⟨hr, hall⟩ | ⟨l₁, b, l₂, hsplit, hr, hlt, hl₁, hall⟩
      · refine Or.inl ⟨?_, ?_⟩
        · simpa [List.foldl_cons, if_neg (not_lt.mpr hx)] using hr
        · intro a ha
          rcases List.mem_cons.mp ha with rfl | ha
          · exact hx
          · exact hall a ha
      · refine Or.inr ⟨x :: l₁, b, l₂, by rw [hsplit]; rfl, ?_, hlt, ?_, ?_⟩
        · simpa [List.foldl_cons, if_neg (not_lt.mpr hx)] using hr
        · intro a ha
          rcases List.mem_cons.mp ha with rfl | ha
          · exact Or.inr hx
          · exact hl₁ a ha
        · intro a ha
          rcases List.mem_cons.mp ha with rfl | ha
          · exact le_trans hx (le_of_lt hlt)
          · exact hall a ha

/-- `pyMaxByScore` returns the first maximum in list order: the list splits
around the returned entry with everything before it strictly smaller and
the whole list bounded by it. -/
lemma pyMaxByScore_first_max {l : List Entry} {best : Entry}
    (h : pyMaxByScore l = some best) :
    ∃ l₁ l₂, l = l₁ ++ best :: l₂ ∧ (∀ a ∈ l₁, a.score < best.score) ∧
      ∀ a ∈ l, a.score ≤ best.score := by
  match l with
  | [] => simp [pyMaxByScore] at h
  | e :: es =>
    rw [pyMaxByScore] at h
    have h' := Option.some.inj h
    rcases foldl_best_spec es e with ⟨hr, hall⟩ | ⟨l₁, b, l₂, hsplit, hr, hlt, hl₁, hall⟩
    · have hbe : best = e := by rw [← h', hr]
      subst hbe
      refine ⟨[], es, by simp, by simp, ?_⟩
      intro a ha
      rcases List.mem_cons.mp ha with rfl | ha
      · exact le_refl _
      · exact hall a ha
    · have hbe : best = b := by rw [← h', hr]
      subst hbe
      refine ⟨e :: l₁, l₂, by rw [hsplit]; rfl, ?_, ?_⟩
      · intro a ha
        rcases List.mem_cons.mp ha with rfl | ha
        · exact hlt
        · rcases hl₁ a ha with hcase | hcase
          · exact hcase
          · exact lt_of_le_of_lt hcase hlt
      · intro a ha
        rcases List.mem_cons.mp ha with rfl | ha
        · exact le_of_lt hlt
        · exact hall a ha

lemma pyMaxByScore_mem {l : List Entry} {best : Entry}
    (h : pyMaxByScore l = some best) : best ∈ l := by
  obtain ⟨l₁, l₂, hsplit, -, -⟩ := pyMaxByScore_first_max h
  rw [hsplit]
  exact List.mem_append_right _ (List.mem_cons_self _ _)

lemma pyMaxByScore_of_ne_nil {l : List Entry} (h : l ≠ []) :
    ∃ best, pyMaxByScore l = some best := by
  match l with
  | [] => exact absurd rfl h
  | e :: es => exact ⟨_, rfl⟩

/-- Full description of the zip loop of `predict_batch`: when every zipped
score list is non-empty the loop succeeds, produces one item per zipped
pair in order, pairs each item with its sentence, and each item's label
and rounded score come from an entry of that pair's score list. -/
lemma batchResults_spec (zipped : List (String × List Entry))
    (h : ∀ p ∈ zipped, p.2 ≠ []) :
    ∃ items, batchResults zipped = .ok items ∧
      items.length = zipped.length ∧
      (∀ i (hi : i < items.length) (hz : i < zipped.length),
        (items.get ⟨i, hi⟩).sentence = (zipped.get ⟨i, hz⟩).1) ∧
      (∀ it ∈ items, ∃ p ∈ zipped, ∃ best ∈ p.2,
        it.label = best.label ∧ it.score = pyRound best.score 4) := by
  induction zipped with
  | nil =>
    refine ⟨[], rfl, rfl, ?_, ?_⟩
    · intro i hi hz
      exact absurd hi (by simp)
    · intro it hit
      exact absurd hit (by simp)
  | cons p rest ih =>
    obtain ⟨s, allScores⟩ := p
    have hne : allScores ≠ [] := h (s, allScores) (List.mem_cons_self _ _)
    obtain ⟨best, hbest⟩ := pyMaxByScore_of_ne_nil hne
    obtain ⟨items, hitems, hlen, hsent, hfrom⟩ :=
      ih (fun q hq => h q (List.mem_cons_of_mem _ hq))
    refine ⟨⟨s, best.label, pyRound best.score 4⟩ :: items, ?_, ?_, ?_, ?_⟩
    · rw [batchResults, hbest, hitems]
    · simpa using hlen
    · intro i hi hz
      match i with
      | 0 => rfl
      | (j+1) =>
        simp only [List.get_cons_succ]
        exact hsent j (by simpa using hi) (by simpa using hz)
    · intro it hit
      rcases List.mem_cons.mp hit with rfl | hit
      · exact ⟨(s, allScores), List.mem_cons_self _ _, best, pyMaxByScore_mem hbest, rfl, rfl⟩
      · obtain ⟨q, hq, b, hb, h1, h2⟩ := hfrom it hit
        exact ⟨q, List.mem_cons_of_mem _ hq, b, hb, h1, h2⟩

/-! ### Claims -/

/-- C7: `load_model` is idempotent: on an already-initialised state it
returns the state unchanged (cached pipeline and recorded load latency
untouched); from the uninitialised state it builds the pipeline with
device 0 (GPU) when CUDA is available and -1 (CPU) otherwise, and
records the load latency. -/
theorem C7_load_model_idempotent (st : ModelState) (cuda : Bool) (t : ℚ) :
    (st.pipeline.isSome = true → load_model cuda t st = st) ∧
    (st.pipeline = none →
      load_model cuda t st =
        { pipeline := some
            { device := if cuda then 0 else -1, topK := none,
              truncation := true, maxLength := 512 },
          loadTimeMs := some t }) := by
  constructor
  · intro h
    simp [load_model, h]
  · intro h
    simp [load_model, h]

/-- Witness for C7 at concrete states: reloading a loaded state is the
identity, and loading from scratch on a CPU-only machine picks device -1
and records the elapsed time. -/
theorem C7_load_model_idempotent_witness :
    load_model true (mkRat 7 1)
        { pipeline := some ⟨0, none, true, 512⟩, loadTimeMs := some (mkRat 3 1) } =
      { pipeline := some ⟨0, none, true, 512⟩, loadTimeMs := some (mkRat 3 1) } ∧
    load_model false (mkRat 7 1) initialState =
      { pipeline := some ⟨-1, none, true, 512⟩, loadTimeMs := some (mkRat 7 1) } :=
  ⟨(C7_load_model_idempotent _ true (mkRat 7 1)).1 rfl,
   (C7_load_model_idempotent initialState false (mkRat 7 1)).2 rfl⟩

/-- C8: `GET /health` answers 200 with body
`{status := "ok", model_name, model_loaded := true, device}` when the
model is loaded, 503 when it is not, and in both cases leaves the model
state untouched (it never triggers a load). -/
theorem C8_health_route (cuda : Bool) (st : ModelState) :
    (st.pipeline.isSome = true →
      healthRoute cuda st =
        (⟨200, .healthBody "ok" MODEL_NAME true
            (if cuda then "GPU (CUDA)" else "CPU")⟩, st)) ∧
    (st.pipeline.isSome = false →
      healthRoute cuda st =
        (⟨503, .detail "Model is not yet loaded. Service is not ready."⟩, st)) ∧
    (healthRoute cuda st).2 = st := by
  refine ⟨?_, ?_, ?_⟩
  · intro h
    simp [healthRoute, get_model_info, h]
  · intro h
    simp [healthRoute, get_model_info, h]
  · cases h : st.pipeline.isSome <;> simp [healthRoute, get_model_info, h]

/-- Witness for C8: a loaded CPU state answers 200 with the full body, the
fresh state answers 503; both keep the state. -/
theorem C8_health_route_witness :
    healthRoute false { pipeline := some ⟨-1, none, true, 512⟩, loadTimeMs := some (mkRat 3 1) } =
      (⟨200, .healthBody "ok" MODEL_NAME true "CPU"⟩,
        { pipeline := some ⟨-1, none, true, 512⟩, loadTimeMs := some (mkRat 3 1) }) ∧
    healthRoute false initialState =
      (⟨503, .detail "Model is not yet loaded. Service is not ready."⟩, initialState) :=
  ⟨(C8_health_route false _).1 rfl, (C8_health_route false initialState).2.1 rfl⟩

/-- C2: before `load_model` has succeeded (pipeline singleton unset) both
inference operations fail with the not-initialised `RuntimeError` and
never call the provider (call count 0), and both inference routes, on a
request that passes validation, answer 503. -/
theorem C2_not_initialized (st : ModelState) (h : st.pipeline = none) :
    (∀ (pipe : String → Except PyError Raw) (s : String),
      predict_single st pipe s = (.error (.runtimeError notInitMsg), 0)) ∧
    (∀ (bpipe : List String → Except PyError Raw) (ss : List String),
      predict_batch st bpipe ss = (.error (.runtimeError notInitMsg), 0)) ∧
    (∀ (pipe : String → Except PyError Raw) (body : Option Json) (sentence : String),
      validatePredictRequest body = .ok sentence →
      predictRoute st pipe body = (⟨503, .detail notInitMsg⟩, 0)) ∧
    (∀ (bpipe : List String → Except PyError Raw) (body : Option Json)
        (sentences : List String),
      validateBatchPredictRequest body = .ok sentences →
      batchRoute st bpipe body = (⟨503, .detail notInitMsg⟩, 0)) := by
  refine ⟨?_, ?_, ?_, ?_⟩
  · intro pipe s
    simp [predict_single, get_pipeline, h]
  · intro bpipe ss
    simp [predict_batch, get_pipeline, h]
  · intro pipe body sentence hval
    simp [predictRoute, hval, predictHandler, predict_single, get_pipeline, h]
  · intro bpipe body sentences hval
    simp [batchRoute, hval, batchHandler, predict_batch, get_pipeline, h]

/-- Witness for C2: at the initial state a valid single request answers 503
with the not-initialised detail and the provider is never invoked. -/
theorem C2_not_initialized_witness :
    initialState.pipeline = none ∧
    predictRoute initialState (fun _ => .ok [[⟨"PRESENT", mkRat 1 2⟩]]) (some (.str "x")) =
      (⟨503, .detail notInitMsg⟩, 0) :=
  ⟨rfl, (C2_not_initialized initialState rfl).2.2.1 _ _ "x" (by decide)⟩

lemma validatePredictRequest_ok_iff (field : Option Json) (v : String) :
    validatePredictRequest field = .ok v ↔
      ∃ s, field = some (.str s) ∧ 1 ≤ s.length ∧ s.length ≤ 2048 ∧
        strip s ≠ "" ∧ v = strip s := by
  cases field with
  | none => simp [validatePredictRequest]
  | some j =>
    cases j with
    | str s =>
      simp only [validatePredictRequest, sentence_must_not_be_blank]
      constructor
      · intro h
        split_ifs at h with h1 h2 h3
        all_goals
          first
          | (simp at h; done)
          | exact ⟨s, rfl, by omega, by omega, by assumption, (Except.ok.inj h).symm⟩
      · rintro ⟨s', hs', hlen1, hlen2, hblank, hv⟩
        have hss : s = s' := by
          have := Option.some.inj hs'
          cases this
          rfl
        subst hss
        rw [if_neg (by omega), if_neg (by omega), if_neg hblank, hv]
    | num q => simp [validatePredictRequest]
    | bool b => simp [validatePredictRequest]
    | arr xs => simp [validatePredictRequest]
    | null => simp [validatePredictRequest]

/-- C3: single-request validation succeeds exactly on a string field of 1
to 2048 characters (pre-trim) that is non-blank after stripping; on
success the stripped text is the value handed to the inference handler;
any validation failure answers 422 without entering the handler (no
inference attempted, provider call count 0). -/
theorem C3_single_validation (st : ModelState) (pipe : String → Except PyError Raw)
    (field : Option Json) :
    ((∃ v, validatePredictRequest field = .ok v) ↔
      (∃ s, field = some (.str s) ∧ 1 ≤ s.length ∧ s.length ≤ 2048 ∧ strip s ≠ "")) ∧
    (∀ s, field = some (.str s) → (∃ v, validatePredictRequest field = .ok v) →
      validatePredictRequest field = .ok (strip s) ∧
      predictRoute st pipe field = predictHandler st pipe (strip s)) ∧
    (∀ e, validatePredictRequest field = .error e →
      predictRoute st pipe field = (⟨422, .detail e⟩, 0)) := by
  refine ⟨?_, ?_, ?_⟩
  · constructor
    · rintro ⟨v, hv⟩
      obtain ⟨s, hs, h1, h2, h3, -⟩ := (validatePredictRequest_ok_iff field v).mp hv
      exact ⟨s, hs, h1, h2, h3⟩
    · rintro ⟨s, hs, h1, h2, h3⟩
      exact ⟨strip s, (validatePredictRequest_ok_iff field (strip s)).mpr
        ⟨s, hs, h1, h2, h3, rfl⟩⟩
  · rintro s rfl ⟨v, hv⟩
    obtain ⟨s', hs', h1, h2, h3, hvs⟩ := (validatePredictRequest_ok_iff _ v).mp hv
    have hss : s = s' := by
      have := Option.some.inj hs'
      cases this
      rfl
    subst hss
    subst hvs
    exact ⟨hv, by simp [predictRoute, hv]⟩
  · intro e he
    simp [predictRoute, he]

/-- Witness for C3: a padded sentence validates, is stripped before
inference, and the whitespace-only sentence is refused with 422 and no
provider call. -/
theorem C3_single_validation_witness :
    (∃ v, validatePredictRequest (some (.str " hi ")) = .ok v) ∧
    validatePredictRequest (some (.str " hi ")) = .ok (strip " hi ") ∧
    predictRoute initialState (fun _ => .ok []) (some (.str " hi ")) =
      predictHandler initialState (fun _ => .ok []) (strip " hi ") ∧
    predictRoute initialState (fun _ => .ok []) (some (.str "   ")) =
      (⟨422, .detail "sentence must not be blank or whitespace only."⟩, 0) := by
  have h1 := (C3_single_validation initialState (fun _ => .ok []) (some (.str " hi "))).1.mpr
    ⟨" hi ", rfl, by decide, by decide, by decide⟩
  have h2 := (C3_single_validation initialState (fun _ => .ok []) (some (.str " hi "))).2.1
    " hi " rfl h1
  have h3 := (C3_single_validation initialState (fun _ => .ok []) (some (.str "   "))).2.2
    "sentence must not be blank or whitespace only." (by decide)
  exact ⟨h1, h2.1, h2.2, h3⟩

lemma asStrings_eq_some_iff (xs : List Json) (ss : List String) :
    asStrings xs = some ss ↔ xs = ss.map Json.str := by
  induction xs generalizing ss with
  | nil =>
    cases ss <;> simp [asStrings]
  | cons x rest ih =>
    cases x with
    | str s =>
      cases ss with
      | nil =>
        simp only [asStrings, List.map_nil]
        constructor
        · intro h
          obtain ⟨ss', -, h2⟩ := Option.map_eq_some'.mp h
          exact absurd h2 (by simp)
        · intro h
          exact absurd h (by simp)
      | cons t ts =>
        simp only [asStrings, List.map_cons]
        constructor
        · intro h
          obtain ⟨ss', hss', h2⟩ := Option.map_eq_some'.mp h
          have h3 := List.cons.inj h2
          have h4 := (ih ss').mp hss'
          rw [h3.1, ← h3.2, h4]
        · intro h
          have h3 := List.cons.inj h
          have h4 : asStrings rest = some ts := (ih ts).mpr h3.2
          rw [h4, Json.str.inj h3.1]
          rfl
    | num q =>
      cases ss <;> simp [asStrings]
    | bool b =>
      cases ss <;> simp [asStrings]
    | arr ys =>
      cases ss <;> simp [asStrings]
    | null =>
      cases ss <;> simp [asStrings]

lemma validateBatchPredictRequest_ok_iff (field : Option Json) (out : List String) :
    validateBatchPredictRequest field = .ok out ↔
      ∃ ss : List String, field = some (.arr (ss.map Json.str)) ∧
        1 ≤ ss.length ∧ ss.length ≤ 64 ∧ (∀ s ∈ ss, strip s ≠ "") ∧
        out = ss.map strip := by
  cases field with
  | none => simp [validateBatchPredictRequest]
  | some j =>
    cases j with
    | arr xs =>
      simp only [validateBatchPredictRequest]
      cases hstr : asStrings xs with
      | none =>
        simp only []
        constructor
        · intro h
          exact absurd h (by simp)
        · rintro ⟨ss, hss, -, -, -, -⟩
          have := Option.some.inj hss
          have : xs = ss.map Json.str := by
            cases this
            rfl
          rw [(asStrings_eq_some_iff xs ss).mpr this] at hstr
          exact absurd hstr (by simp)
      | some ss =>
        have hxs : xs = ss.map Json.str := (asStrings_eq_some_iff xs ss).mp hstr
        subst hxs
        simp only [validate_sentences]
        constructor
        · intro h
          split_ifs at h with h1 h2 h3
          all_goals
            first
            | (simp at h; done)
            | (refine ⟨ss, rfl, by omega, by omega, ?_, (Except.ok.inj h).symm⟩
               intro s hs
               intro hcontra
               exact h3 (List.any_eq_true.mpr ⟨s, hs, by simp [hcontra]⟩))
        · rintro ⟨ss', hss', hlen1, hlen2, hblank, hout⟩
          have hss : ss = ss' := by
            have h0 := Option.some.inj hss'
            have h1 : Json.arr (ss.map Json.str) = Json.arr (ss'.map Json.str) := h0
            have h2 := List.map_injective_iff.mpr (fun a b hab => Json.str.inj hab)
            exact h2 (Json.arr.inj h1)
          subst hss
          have hany : ss.any (fun s => strip s = "") = false := by
            rw [List.any_eq_false]
            intro s hs
            simpa using hblank s hs
          rw [if_neg (by omega), if_neg (by omega), if_neg (by simp [hany]), hout]
    | str s => simp [validateBatchPredictRequest]
    | num q => simp [validateBatchPredictRequest]
    | bool b => simp [validateBatchPredictRequest]
    | null => simp [validateBatchPredictRequest]

lemma dropWhile_of_head_false {p : Char → Bool} {c : Char} (h : p c = false) (n : ℕ) :
    List.dropWhile p (List.replicate n c) = List.replicate n c := by
  cases n with
  | zero => rfl
  | succ m => simp [List.replicate_succ, List.dropWhile_cons, h]

lemma strip_replicate_a (n : ℕ) :
    strip (String.mk (List.replicate n 'a')) = String.mk (List.replicate n 'a') := by
  show String.mk (pyStrip (List.replicate n 'a')) = String.mk (List.replicate n 'a')
  unfold pyStrip
  rw [dropWhile_of_head_false (by decide), List.reverse_replicate,
    dropWhile_of_head_false (by decide), List.reverse_replicate]

/-- C4 counterexample: batch validation does NOT bound element length: the
batch whose single element is a 2049-character string — longer than the
2048-character limit the claim asserts — is accepted by
`validateBatchPredictRequest`, so validation success is not equivalent
to every element being at most 2048 characters. -/
theorem C4_counterexample :
    2048 < (String.mk (List.replicate 2049 'a')).length ∧
    validateBatchPredictRequest
        (some (.arr [.str (String.mk (List.replicate 2049 'a'))])) =
      .ok [String.mk (List.replicate 2049 'a')] := by
  constructor
  · show 2048 < (List.replicate 2049 'a').length
    rw [List.length_replicate]
    omega
  · refine (validateBatchPredictRequest_ok_iff _ _).mpr
      ⟨[String.mk (List.replicate 2049 'a')], rfl, by simp, by simp, ?_, ?_⟩
    · intro s hs
      rw [List.mem_singleton] at hs
      subst hs
      rw [strip_replicate_a]
      intro hcontra
      have hnil : (List.replicate 2049 'a') = ([] : List Char) := congrArg String.data hcontra
      rw [List.replicate_eq_nil_iff] at hnil
      omega
    · rw [List.map_singleton, strip_replicate_a]

/-- C4 amended: batch validation succeeds exactly on a JSON array of 1 to
64 strings each non-blank after stripping — with NO per-element length
bound (the 2048-character limit of the single endpoint is not enforced
on batch elements); on success the stripped elements, in order, are
handed to the handler; any validation failure answers 422 with the
handler never entered (all-or-nothing, no inference attempted). -/
theorem C4_batch_validation (st : ModelState) (bpipe : List String → Except PyError Raw)
    (field : Option Json) :
    ((∃ v, validateBatchPredictRequest field = .ok v) ↔
      (∃ ss : List String, field = some (.arr (ss.map Json.str)) ∧
        1 ≤ ss.length ∧ ss.length ≤ 64 ∧ ∀ s ∈ ss, strip s ≠ "")) ∧
    (∀ ss : List String, field = some (.arr (ss.map Json.str)) →
      (∃ v, validateBatchPredictRequest field = .ok v) →
      validateBatchPredictRequest field = .ok (ss.map strip) ∧
      batchRoute st bpipe field = batchHandler st bpipe (ss.map strip)) ∧
    (∀ e, validateBatchPredictRequest field = .error e →
      batchRoute st bpipe field = (⟨422, .detail e⟩, 0)) := by
  refine ⟨?_, ?_, ?_⟩
  · constructor
    · rintro ⟨v, hv⟩
      obtain ⟨ss, hss, h1, h2, h3, -⟩ := (validateBatchPredictRequest_ok_iff field v).mp hv
      exact ⟨ss, hss, h1, h2, h3⟩
    · rintro ⟨ss, hss, h1, h2, h3⟩
      exact ⟨ss.map strip,
        (validateBatchPredictRequest_ok_iff field (ss.map strip)).mpr
          ⟨ss, hss, h1, h2, h3, rfl⟩⟩
  · rintro ss rfl ⟨v, hv⟩
    obtain ⟨ss', hss', h1, h2, h3, hout⟩ := (validateBatchPredictRequest_ok_iff _ v).mp hv
    have hinj : ss = ss' := by
      have h0 := Option.some.inj hss'
      have hmap := List.map_injective_iff.mpr
        (fun a b hab => Json.str.inj hab) (Json.arr.inj h0)
      exact hmap
    subst hinj
    subst hout
    exact ⟨hv, by simp [batchRoute, hv]⟩
  · intro e he
    simp [batchRoute, he]

/-- Witness for the amended C4: a two-element batch with padding validates
to its stripped elements in order, and the empty batch is refused with
422 and no provider call. -/
theorem C4_batch_validation_witness :
    validateBatchPredictRequest (some (.arr [.str " a ", .str "b"])) = .ok ["a", "b"] ∧
    batchRoute initialState (fun _ => .ok []) (some (.arr ([] : List Json))) =
      (⟨422, .detail "List should have at least 1 item"⟩, 0) := by
  have h1 := (C4_batch_validation initialState (fun _ => .ok [])
      (some (.arr [.str " a ", .str "b"]))).2.1 [" a ", "b"] rfl
    ((C4_batch_validation initialState (fun _ => .ok [])
        (some (.arr [.str " a ", .str "b"]))).1.mpr
      ⟨[" a ", "b"], rfl, by decide, by decide, by decide⟩)
  have h2 := (C4_batch_validation initialState (fun _ => .ok [])
      (some (.arr ([] : List Json)))).2.2 "List should have at least 1 item" (by decide)
  exact ⟨by simpa using h1.1, h2⟩

/-- C5: on an initialised state, for any well-formed provider response for
a single text (a non-empty score list for the sentence),
`predict_single` returns the label of the entry with the maximal score —
the first maximum in provider-returned order when several entries tie
(everything before the chosen entry scores strictly lower) — together
with that entry's score rounded to 4 decimal digits. -/
theorem C5_argmax_first_max (st : ModelState) (p : Pipeline)
    (pipe : String → Except PyError Raw) (sentence : String)
    (allScores : List Entry) (rest : Raw)
    (hst : st.pipeline = some p)
    (hpipe : pipe sentence = .ok (allScores :: rest))
    (hne : allScores ≠ []) :
    ∃ best l₁ l₂, allScores = l₁ ++ best :: l₂ ∧
      (∀ a ∈ l₁, a.score < best.score) ∧
      (∀ a ∈ allScores, a.score ≤ best.score) ∧
      predict_single st pipe sentence = (.ok ⟨best.label, pyRound best.score 4⟩, 1) := by
  obtain ⟨best, hbest⟩ := pyMaxByScore_of_ne_nil hne
  obtain ⟨l₁, l₂, hsplit, hbefore, hbound⟩ := pyMaxByScore_first_max hbest
  exact ⟨best, l₁, l₂, hsplit, hbefore, hbound,
    by simp [predict_single, get_pipeline, hst, hpipe, hbest]⟩

/-- Witness for C5 at a concrete tied response: two entries share the top
score and the first one in provider order is selected. -/
theorem C5_argmax_first_max_witness :
    ∃ best l₁ l₂,
      ([⟨"ABSENT", mkRat 1 2⟩, ⟨"PRESENT", mkRat 1 2⟩] : List Entry) = l₁ ++ best :: l₂ ∧
      (∀ a ∈ l₁, a.score < best.score) ∧
      (∀ a ∈ ([⟨"ABSENT", mkRat 1 2⟩, ⟨"PRESENT", mkRat 1 2⟩] : List Entry),
        a.score ≤ best.score) ∧
      predict_single { pipeline := some ⟨-1, none, true, 512⟩, loadTimeMs := some (mkRat 3 1) }
          (fun _ => .ok [[⟨"ABSENT", mkRat 1 2⟩, ⟨"PRESENT", mkRat 1 2⟩]]) "No pain." =
        (.ok ⟨best.label, pyRound best.score 4⟩, 1) :=
  C5_argmax_first_max _ ⟨-1, none, true, 512⟩ _ "No pain."
    [⟨"ABSENT", mkRat 1 2⟩, ⟨"PRESENT", mkRat 1 2⟩] [] rfl rfl (by decide)

/-- C6: a 200 response of `POST /predict` carries a label drawn from the
provider's entries — hence from the closed set {PRESENT, ABSENT,
CONDITIONAL} whenever the provider only emits those labels — and a score
between 0 and 1 (response-model validation turns anything else into a
500, so a 200 always satisfies the bound). -/
theorem C6_label_in_set_score_in_unit (st : ModelState)
    (pipe : String → Except PyError Raw) (body : Option Json)
    (label : String) (score : ℚ) (n : Nat)
    (hlab : ∀ s raw, pipe s = .ok raw → ∀ l ∈ raw, ∀ e ∈ l, e.label ∈ labelSet)
    (h200 : predictRoute st pipe body = (⟨200, .predictBody label score⟩, n)) :
    label ∈ labelSet ∧ 0 ≤ score ∧ score ≤ 1 := by
  rcases hval : validatePredictRequest body with e | sentence
  · rw [predictRoute] at h200
    rw [hval] at h200
    simp at h200
  rw [predictRoute] at h200
  rw [hval] at h200
  rcases hpl : st.pipeline with - | p
  · simp [predictHandler, predict_single, get_pipeline, hpl] at h200
  rcases hpipe : pipe sentence with err | raw
  · rcases err with m | m <;>
      simp [predictHandler, predict_single, get_pipeline, hpl, hpipe] at h200
  rcases raw with - | ⟨allScores, rest⟩
  · simp [predictHandler, predict_single, get_pipeline, hpl, hpipe] at h200
  rcases hbest : pyMaxByScore allScores with - | best
  · simp [predictHandler, predict_single, get_pipeline, hpl, hpipe, hbest] at h200
  have hmem : best ∈ allScores := pyMaxByScore_mem hbest
  by_cases hcond : 0 ≤ pyRound best.score 4 ∧ pyRound best.score 4 ≤ 1
  · simp [predictHandler, predict_single, get_pipeline, hpl, hpipe, hbest,
      if_pos hcond] at h200
    obtain ⟨⟨hl, hs⟩, -⟩ := h200
    subst hl
    subst hs
    exact ⟨hlab sentence _ hpipe allScores (List.mem_cons_self _ _) best hmem, hcond⟩
  · simp [predictHandler, predict_single, get_pipeline, hpl, hpipe, hbest,
      if_neg hcond] at h200

/-- Witness for C6: a concrete 200 response with label PRESENT and score
within the unit interval. -/
theorem C6_label_in_set_score_in_unit_witness :
    "PRESENT" ∈ labelSet ∧ 0 ≤ mkRat 1 2 ∧ (mkRat 1 2 : ℚ) ≤ 1 :=
  C6_label_in_set_score_in_unit
    { pipeline := some ⟨-1, none, true, 512⟩, loadTimeMs := some (mkRat 3 1) }
    (fun _ => .ok [[⟨"PRESENT", mkRat 1 2⟩]]) (some (.str "She has fever."))
    "PRESENT" (mkRat 1 2) 1
    (by
      intro s raw h
      have hraw := Except.ok.inj h
      subst hraw
      decide)
    (by decide)

lemma predict_single_count_le (st : ModelState) (pipe : String → Except PyError Raw)
    (s : String) : (predict_single st pipe s).2 ≤ 1 := by
  rcases h : get_pipeline st with e | p
  · simp [predict_single, h]
  rcases h2 : pipe s with e | raw
  · simp [predict_single, h, h2]
  rcases raw with - | ⟨a, r⟩
  · simp [predict_single, h, h2]
  rcases h3 : pyMaxByScore a with - | best <;> simp [predict_single, h, h2, h3]

lemma predictHandler_count_le (st : ModelState) (pipe : String → Except PyError Raw)
    (s : String) : (predictHandler st pipe s).2 ≤ 1 := by
  rcases hps : predict_single st pipe s with ⟨res, n⟩
  have hn : n ≤ 1 := by
    have := predict_single_count_le st pipe s
    rw [hps] at this
    simpa using this
  unfold predictHandler
  rw [hps]
  rcases res with err | pr
  · rcases err with m | m <;> exact hn
  · show (if 0 ≤ pr.score ∧ pr.score ≤ 1 then
        ((⟨200, .predictBody pr.label pr.score⟩ : HttpResponse), n)
      else ((⟨500, .detail internalErrorDetail⟩ : HttpResponse), n)).2 ≤ 1
    split <;> simpa using hn

lemma predict_batch_count_le (st : ModelState) (bpipe : List String → Except PyError Raw)
    (ss : List String) : (predict_batch st bpipe ss).2 ≤ 1 := by
  rcases h : get_pipeline st with e | p
  · simp [predict_batch, h]
  rcases h2 : bpipe ss with e | raw <;> simp [predict_batch, h, h2]

lemma batchHandler_count_le (st : ModelState) (bpipe : List String → Except PyError Raw)
    (ss : List String) : (batchHandler st bpipe ss).2 ≤ 1 := by
  rcases hps : predict_batch st bpipe ss with ⟨res, n⟩
  have hn : n ≤ 1 := by
    have := predict_batch_count_le st bpipe ss
    rw [hps] at this
    simpa using this
  unfold batchHandler
  rw [hps]
  rcases res with err | items
  · rcases err with m | m <;> exact hn
  · show (if items.all (fun it => decide (0 ≤ it.score ∧ it.score ≤ 1)) then
        ((⟨200, .batchBody items items.length⟩ : HttpResponse), n)
      else ((⟨500, .detail internalErrorDetail⟩ : HttpResponse), n)).2 ≤ 1
    split <;> simpa using hn

/-- C9 counterexample: on an initialised model a provider failure that is a
`RuntimeError` (as torch failures such as CUDA errors are) is caught by
the `except RuntimeError` branch of the `predict` endpoint and answered
with status 503 — not 500 — and with the provider's own failure text
echoed in the response detail, contradicting both the status and the
never-echoed parts of the claim. -/
theorem C9_counterexample :
    predictRoute { pipeline := some ⟨0, none, true, 512⟩, loadTimeMs := some (mkRat 5 1) }
        (fun _ => .error (.runtimeError "CUDA out of memory"))
        (some (.str "He has fever.")) =
      (⟨503, .detail "CUDA out of memory"⟩, 1) := by
  decide

/-- C9 amended: on an initialised model, a provider failure that is NOT a
`RuntimeError` is answered 500 with a fixed generic detail that does not
depend on (and so never echoes) the provider's failure text; a provider
failure that IS a `RuntimeError` is instead answered 503 with the
provider's message as detail; in every case at most one provider call is
made before the failure is surfaced (no retry). -/
theorem C9_inference_failure_translation (st : ModelState) (p : Pipeline)
    (pipe : String → Except PyError Raw) (bpipe : List String → Except PyError Raw)
    (s : String) (ss : List String) (m : String)
    (hst : st.pipeline = some p) :
    (pipe s = .error (.otherError m) →
      predictHandler st pipe s = (⟨500, .detail "Prediction failed."⟩, 1)) ∧
    (bpipe ss = .error (.otherError m) →
      batchHandler st bpipe ss = (⟨500, .detail "Batch prediction failed."⟩, 1)) ∧
    (pipe s = .error (.runtimeError m) →
      predictHandler st pipe s = (⟨503, .detail m⟩, 1)) ∧
    (bpipe ss = .error (.runtimeError m) →
      batchHandler st bpipe ss = (⟨503, .detail m⟩, 1)) ∧
    (predictHandler st pipe s).2 ≤ 1 ∧ (batchHandler st bpipe ss).2 ≤ 1 := by
  refine ⟨?_, ?_, ?_, ?_, predictHandler_count_le st pipe s, batchHandler_count_le st bpipe ss⟩
  · intro h
    simp [predictHandler, predict_single, get_pipeline, hst, h]
  · intro h
    simp [batchHandler, predict_batch, get_pipeline, hst, h]
  · intro h
    simp [predictHandler, predict_single, get_pipeline, hst, h]
  · intro h
    simp [batchHandler, predict_batch, get_pipeline, hst, h]

/-- Witness for the amended C9: a non-RuntimeError provider failure is
translated to the generic 500 detail on both endpoints. -/
theorem C9_inference_failure_translation_witness :
    predictHandler { pipeline := some ⟨0, none, true, 512⟩, loadTimeMs := some (mkRat 5 1) }
        (fun _ => .error (.otherError "tensor shape mismatch")) "He has fever." =
      (⟨500, .detail "Prediction failed."⟩, 1) ∧
    batchHandler { pipeline := some ⟨0, none, true, 512⟩, loadTimeMs := some (mkRat 5 1) }
        (fun _ => .error (.otherError "tensor shape mismatch")) ["He has fever."] =
      (⟨500, .detail "Batch prediction failed."⟩, 1) := by
  have h := C9_inference_failure_translation
    { pipeline := some ⟨0, none, true, 512⟩, loadTimeMs := some (mkRat 5 1) }
    ⟨0, none, true, 512⟩ (fun _ => .error (.otherError "tensor shape mismatch"))
    (fun _ => .error (.otherError "tensor shape mismatch"))
    "He has fever." ["He has fever."] "tensor shape mismatch" rfl
  exact ⟨h.1 rfl, h.2.1 rfl⟩

/-- C1: a batch request that passes validation, served by an initialised
model whose provider answers one non-empty score list per validated
sentence (scores in the unit interval, so the response model accepts
them), yields a 200 response whose results preserve input order — the
i-th result carries the i-th validated sentence — and whose `count`
equals the length of the results which equals the length of the
validated input. -/
theorem C1_batch_order_and_count (st : ModelState) (p : Pipeline)
    (bpipe : List String → Except PyError Raw) (body : Option Json)
    (sentences : List String) (raw : Raw)
    (hst : st.pipeline = some p)
    (hval : validateBatchPredictRequest body = .ok sentences)
    (hpipe : bpipe sentences = .ok raw)
    (hlen : raw.length = sentences.length)
    (hne : ∀ l ∈ raw, l ≠ [])
    (hsc : ∀ l ∈ raw, ∀ e ∈ l, 0 ≤ e.score ∧ e.score ≤ 1) :
    ∃ items, batchRoute st bpipe body = (⟨200, .batchBody items items.length⟩, 1) ∧
      items.length = sentences.length ∧
      ∀ i (hi : i < items.length) (hs : i < sentences.length),
        (items.get ⟨i, hi⟩).sentence = sentences.get ⟨i, hs⟩ := by
  have hzne : ∀ q ∈ sentences.zip raw, q.2 ≠ [] := by
    intro q hq
    exact hne q.2 (List.of_mem_zip hq).2
  obtain ⟨items, hitems, hlen2, hsent, hfrom⟩ := batchResults_spec (sentences.zip raw) hzne
  have hbounds : ∀ it ∈ items, 0 ≤ it.score ∧ it.score ≤ 1 := by
    intro it hit
    obtain ⟨q, hq, best, hbest, -, hscore⟩ := hfrom it hit
    have hb := hsc q.2 (List.of_mem_zip hq).2 best hbest
    rw [hscore]
    exact pyRound_mem_unit 4 hb.1 hb.2
  have hall : items.all (fun it => decide (0 ≤ it.score ∧ it.score ≤ 1)) = true := by
    rw [List.all_eq_true]
    intro it hit
    simpa using hbounds it hit
  have hzlen : (sentences.zip raw).length = sentences.length := by
    rw [List.length_zip, hlen, Nat.min_self]
  refine ⟨items, ?_, by omega, ?_⟩
  · simp [batchRoute, hval, batchHandler, predict_batch, get_pipeline, hst, hpipe,
      hitems, hall]
    exact hbounds
  · intro i hi hs
    have hz : i < (sentences.zip raw).length := by omega
    rw [hsent i hi hz]
    simp [List.get_eq_getElem, List.getElem_zip]

/-- Witness for C1: a concrete two-sentence batch answered in order with
count 2. -/
theorem C1_batch_order_and_count_witness :
    ∃ items,
      batchRoute { pipeline := some ⟨-1, none, true, 512⟩, loadTimeMs := some (mkRat 3 1) }
          (fun _ => .ok [[⟨"ABSENT", mkRat 9 10⟩], [⟨"PRESENT", mkRat 3 4⟩]])
          (some (.arr [.str "No pain.", .str "Has fever."])) =
        (⟨200, .batchBody items items.length⟩, 1) ∧
      items.length = (["No pain.", "Has fever."] : List String).length ∧
      ∀ i (hi : i < items.length) (hs : i < (["No pain.", "Has fever."] : List String).length),
        (items.get ⟨i, hi⟩).sentence = (["No pain.", "Has fever."] : List String).get ⟨i, hs⟩ :=
  C1_batch_order_and_count _ ⟨-1, none, true, 512⟩ _ _ ["No pain.", "Has fever."]
    [[⟨"ABSENT", mkRat 9 10⟩], [⟨"PRESENT", mkRat 3 4⟩]]
    rfl (by decide) rfl rfl (by decide) (by decide)

/-- C10: `predict_batch` pairs validated sentences with the provider's
per-sentence score lists positionally via `zip`, so it returns exactly
`min(len(sentences), len(raw))` items: when the provider returns fewer
score lists than sentences the trailing sentences are silently dropped
(the call still succeeds), and one item per sentence is obtained exactly
when the provider answers at least one score list per sentence. -/
theorem C10_zip_truncates (st : ModelState) (p : Pipeline)
    (bpipe : List String → Except PyError Raw)
    (sentences : List String) (raw : Raw)
    (hst : st.pipeline = some p)
    (hpipe : bpipe sentences = .ok raw)
    (hne : ∀ l ∈ raw, l ≠ []) :
    ∃ items, predict_batch st bpipe sentences = (.ok items, 1) ∧
      items.length = min sentences.length raw.length ∧
      ∀ i (hi : i < items.length) (hs : i < sentences.length),
        (items.get ⟨i, hi⟩).sentence = sentences.get ⟨i, hs⟩ := by
  have hzne : ∀ q ∈ sentences.zip raw, q.2 ≠ [] := by
    intro q hq
    exact hne q.2 (List.of_mem_zip hq).2
  obtain ⟨items, hitems, hlen2, hsent, -⟩ := batchResults_spec (sentences.zip raw) hzne
  have hzlen : (sentences.zip raw).length = min sentences.length raw.length := by
    rw [List.length_zip]
  refine ⟨items, ?_, by omega, ?_⟩
  · simp [predict_batch, get_pipeline, hst, hpipe, hitems]
  · intro i hi hs
    have hz : i < (sentences.zip raw).length := by omega
    rw [hsent i hi hz]
    simp [List.get_eq_getElem, List.getElem_zip]

/-- Witness for C10: two sentences but a single provider score list yield
one result (the second sentence is silently dropped), matching
`min 2 1 = 1`. -/
theorem C10_zip_truncates_witness :
    ∃ items,
      predict_batch { pipeline := some ⟨-1, none, true, 512⟩, loadTimeMs := some (mkRat 3 1) }
          (fun _ => .ok [[⟨"ABSENT", mkRat 9 10⟩]]) ["No pain.", "Has fever."] =
        (.ok items, 1) ∧
      items.length =
        min (["No pain.", "Has fever."] : List String).length
          ([[(⟨"ABSENT", mkRat 9 10⟩ : Entry)]] : Raw).length ∧
      ∀ i (hi : i < items.length) (hs : i < (["No pain.", "Has fever."] : List String).length),
        (items.get ⟨i, hi⟩).sentence = (["No pain.", "Has fever."] : List String).get ⟨i, hs⟩ :=
  C10_zip_truncates _ ⟨-1, none, true, 512⟩ _ ["No pain.", "Has fever."]
    [[⟨"ABSENT", mkRat 9 10⟩]] rfl rfl (by decide)

end ClinicalBert
